import Mathlib

/-
Shallow embedding of the refresh orchestration subsystem of the
cw-ship-plugin repository (src/main.py): the fetch thread with its retry
loop and multi-stage record filter, the plugin scheduler (check_update,
update_ship_dynamics, handle_success, handle_failure) modelled as a step
function over an explicit state, and the auto-scroll cursor update.
Times are naturals measured in seconds, as produced by time.time().
-/

namespace CwShip

/- ### String helpers (substring containment, Python str.split models) -/

def isPrefixOfChars : List Char → List Char → Bool
  | [], _ => true
  | _ :: _, [] => false
  | a :: as, b :: bs => a == b && isPrefixOfChars as bs

def containsSub (pat : List Char) : List Char → Bool
  | [] => isPrefixOfChars pat []
  | c :: rest => isPrefixOfChars pat (c :: rest) || containsSub pat rest

/-- Model of the Python expression `pat in s` for strings. -/
def strContains (s pat : String) : Bool :=
  containsSub pat.data s.data

/-- Model of Python str.split(sep) for a single-character separator. -/
def splitChars (sep : Char) : List Char → List (List Char)
  | [] => [[]]
  | c :: rest =>
    match splitChars sep rest with
    | [] => [[]]
    | h :: t => if c == sep then [] :: h :: t else (c :: h) :: t

/-- Model of Python str.split() followed by indexing [0]: drops leading
whitespace and returns the first maximal run of non-whitespace characters;
none when the string holds no token (IndexError in the source). -/
def firstToken (s : String) : Option String :=
  match s.data.dropWhile Char.isWhitespace with
  | [] => none
  | l => some (String.mk (l.takeWhile (fun c => !c.isWhitespace)))

def allDigits (l : List Char) : Bool := l.all Char.isDigit

def digitsVal (l : List Char) : Nat :=
  l.foldl (fun a c => a * 10 + (c.toNat - 48)) 0

/- ### Calendar dates, model of datetime.strptime(s, "%Y-%m-%d").date() -/

structure YMD where
  y : Nat
  m : Nat
  d : Nat
  deriving DecidableEq

def isLeap (y : Nat) : Bool :=
  (y % 4 == 0 && y % 100 != 0) || (y % 400 == 0)

def daysInMonth (y m : Nat) : Nat :=
  if m == 2 then (if isLeap y then 29 else 28)
  else if m == 4 || m == 6 || m == 9 || m == 11 then 30
  else 31

/-- Model of datetime.strptime(s, "%Y-%m-%d").date(): exactly four digits
for the year, one or two digits for month and day, full-string match, and
calendar validation of the resulting date; none models ValueError. -/
def parseYmd (s : String) : Option YMD :=
  match splitChars (Char.ofNat 45) s.data with
  | [ys, ms, ds] =>
    if (ys.length == 4 && allDigits ys
        && (ms.length == 1 || ms.length == 2) && allDigits ms
        && (ds.length == 1 || ds.length == 2) && allDigits ds) then
      let y := digitsVal ys
      let m := digitsVal ms
      let d := digitsVal ds
      if (1 ≤ y ∧ 1 ≤ m ∧ m ≤ 12 ∧ 1 ≤ d ∧ d ≤ daysInMonth y m) then
        some ⟨y, m, d⟩
      else none
    else none
  | _ => none

/-- Model of datetime.strptime(dt.split()[0], "%Y-%m-%d").date() as used
in ShipFetchThread.run: none models either IndexError or ValueError. -/
def parseDateField (dt : String) : Option YMD :=
  (firstToken dt).bind parseYmd

/- ### Raw records and the multi-stage filter of ShipFetchThread.run -/

/-- A raw upstream record as consumed by ShipFetchThread.run. Fields read
with item.get(k, default-empty-string) are plain strings where a missing
field is the empty string; confrom is read with item.get alone, so a
missing field is none. -/
structure RawRecord where
  confrom : Option String
  description : String
  datetime : String
  fbz : String
  deriving DecidableEq

/-- The three-field dictionary emitted through fetch_success. -/
structure ShipInfo where
  datetime : String
  description : String
  fbz : String
  deriving DecidableEq

def toShipInfo (r : RawRecord) : ShipInfo :=
  ⟨r.datetime, r.description, r.fbz⟩

/-- Condition 1 of the filter: confrom equals the target terminal. -/
def originMatches (item : RawRecord) : Bool :=
  item.confrom == some "六横大岙客运中心"

/-- Condition 2 of the filter: description holds one of the two
destination substrings. -/
def destMatches (item : RawRecord) : Bool :=
  strContains item.description "沈家门" || strContains item.description "长峙"

/-- Condition 3 of the filter, from the source: when the datetime field is
non-empty its first token must parse as %Y-%m-%d and equal today; a parse
failure drops the record; an EMPTY datetime field skips the check and the
record is kept. -/
def dateKeep (today : YMD) (dt : String) : Bool :=
  if dt = "" then true
  else
    match parseDateField dt with
    | none => false
    | some d => d == today

def keepRecord (today : YMD) (item : RawRecord) : Bool :=
  originMatches item && destMatches item && dateKeep today item.datetime

def filterRecords (today : YMD) (data : List RawRecord) : List RawRecord :=
  data.filter (keepRecord today)

def shipInfoList (l : List RawRecord) : List ShipInfo :=
  l.map toShipInfo

/- ### ShipFetchThread.run: the bounded retry loop -/

/-- What one iteration of the try block yields: raises models any
exception (transport, HTTP status, decode); returns carries the decoded
data array. -/
inductive AttemptResult where
  | raises : AttemptResult
  | returns : List RawRecord → AttemptResult
  deriving DecidableEq

inductive RunResult where
  | success : List ShipInfo → RunResult
  | failed : RunResult
  deriving DecidableEq

def max_retries : Nat := 3

/-- The while loop of ShipFetchThread.run. The fuel argument is
max_retries minus retry_count; rc counts fetch attempts made so far. A
non-empty data array emits fetch_success with the filtered list; an
exception OR an empty data array falls through to retry_count += 1. The
returned natural is the total number of attempts made. -/
def runFetchAux (fetcher : Nat → AttemptResult) (today : YMD) :
    Nat → Nat → RunResult × Nat
  | 0, rc => (RunResult.failed, rc)
  | fuel + 1, rc =>
    match fetcher rc with
    | AttemptResult.raises => runFetchAux fetcher today fuel (rc + 1)
    | AttemptResult.returns data =>
      if data.isEmpty then runFetchAux fetcher today fuel (rc + 1)
      else (RunResult.success (shipInfoList (filterRecords today data)), rc + 1)

def runFetch (fetcher : Nat → AttemptResult) (today : YMD) : RunResult × Nat :=
  runFetchAux fetcher today max_retries 0

/- ### The Plugin scheduler (check_update / update_ship_dynamics /
handle_success / handle_failure) as a step function over explicit state -/

/-- One element of the cached_descriptions list: msg models a
single-field dictionary holding only a description (loading, error and
empty placeholders); full models a three-field ship-info dictionary. -/
inductive CEntry where
  | msg : String → CEntry
  | full : ShipInfo → CEntry
  deriving DecidableEq

def CACHE_DURATION : Nat := 1800

/-- The mutable attributes of the Plugin instance that the refresh logic
touches, plus bookkeeping that makes worker threads and pending
QTimer.singleShot callbacks explicit: inFlight lists the start times of
fetch workers that were started and have not yet delivered a signal;
pending lists the absolute times at which scheduled 5-minute retry
callbacks will fire; executed records whether execute() was called. -/
structure PluginState where
  last_fetched : Nat
  cached_descriptions : List CEntry
  is_loading : Bool
  inFlight : List Nat
  pending : List Nat
  executed : Bool
  deriving DecidableEq

/-- Plugin.__init__: last_fetched = 0, loading placeholder cached, not
loading, no worker, no scheduled retry. -/
def initState : PluginState :=
  { last_fetched := 0
    cached_descriptions := [CEntry.msg "正在加载船班信息..."]
    is_loading := false
    inFlight := []
    pending := []
    executed := false }

/-- The staleness test on line 155 of the source:
time.time() - self.last_fetched > CACHE_DURATION, with the TTL made a
parameter. Subtraction is truncated natural subtraction, which agrees
with the real-valued test whenever now is at or after last_fetched. -/
def isStale (now last_fetched ttl : Nat) : Bool :=
  now - last_fetched > ttl

/-- Plugin.update_ship_dynamics: sets is_loading, overwrites
cached_descriptions with the loading placeholder, and starts a new fetch
worker unconditionally (there is no in-flight guard in this method). -/
def update_ship_dynamics (s : PluginState) (now : Nat) : PluginState :=
  { s with
    is_loading := true
    cached_descriptions := [CEntry.msg "正在加载船班信息..."]
    inFlight := s.inFlight ++ [now] }

/-- Plugin.check_update: fetch only when stale and not already loading. -/
def check_update (s : PluginState) (now : Nat) : PluginState :=
  if isStale now s.last_fetched CACHE_DURATION && !s.is_loading then
    update_ship_dynamics s now
  else s

/-- Plugin.handle_success: clears is_loading, stamps last_fetched with
the completion time, and caches the fetched list, substituting the
no-data placeholder when the list is empty. -/
def handle_success (s : PluginState) (now : Nat) (l : List ShipInfo) : PluginState :=
  { s with
    is_loading := false
    last_fetched := now
    cached_descriptions :=
      if l.isEmpty then [CEntry.msg "暂无六横大岙客运中心船班信息"]
      else l.map CEntry.full }

/-- Plugin.handle_failure: clears is_loading, caches the error
placeholder, and schedules a retry callback 300 seconds later
(QTimer.singleShot(300000, self.update_ship_dynamics)). last_fetched is
left untouched. -/
def handle_failure (s : PluginState) (now : Nat) : PluginState :=
  { s with
    is_loading := false
    cached_descriptions := [CEntry.msg "数据获取失败，5分钟后重试"]
    pending := s.pending ++ [now + 300] }

/-- The events that drive the scheduler: the host calling execute(), a
one-second timer tick running check_update, a worker delivering
fetch_success or fetch_failed, and a scheduled 5-minute singleShot
firing. Every event carries the wall-clock second at which it runs. -/
inductive Event where
  | execute : Nat → Event
  | tick : Nat → Event
  | workerSuccess : Nat → List ShipInfo → Event
  | workerFailure : Nat → Event
  | delayedRetry : Nat → Event
  deriving DecidableEq

def Event.time : Event → Nat
  | Event.execute now => now
  | Event.tick now => now
  | Event.workerSuccess now _ => now
  | Event.workerFailure now => now
  | Event.delayedRetry now => now

/-- The transition function. Worker signals remove one eligible start
time from inFlight; a delayedRetry consumes its scheduled time from
pending and calls update_ship_dynamics with no guard, exactly as the
singleShot callback does in the source. -/
def step (s : PluginState) (e : Event) : PluginState :=
  match e with
  | Event.execute now => update_ship_dynamics { s with executed := true } now
  | Event.tick now => check_update s now
  | Event.workerSuccess now l =>
    { handle_success s now l with
      inFlight := s.inFlight.eraseP (fun st => st ≤ now) }
  | Event.workerFailure now =>
    { handle_failure s now with
      inFlight := s.inFlight.eraseP (fun st => st + 6 ≤ now) }
  | Event.delayedRetry now =>
    update_ship_dynamics { s with pending := s.pending.erase now } now

/-- Which events can really occur in state s when the previous event ran
at time t: time is monotone; execute() is called once; a success signal
needs a worker started no later than now; a failure signal needs a
worker started at least 6 seconds before now (three failed attempts each
followed by time.sleep(2)); a delayedRetry fires exactly at a scheduled
pending time. -/
def validStep (s : PluginState) (t : Nat) (e : Event) : Bool :=
  decide (t ≤ e.time) &&
  match e with
  | Event.execute _ => !s.executed
  | Event.tick _ => true
  | Event.workerSuccess now _ => s.inFlight.any (fun st => st ≤ now)
  | Event.workerFailure now => s.inFlight.any (fun st => st + 6 ≤ now)
  | Event.delayedRetry now => s.pending.contains now

def validFrom (s : PluginState) (t : Nat) : List Event → Bool
  | [] => true
  | e :: rest => validStep s t e && validFrom (step s e) (Event.time e) rest

/-- A trace is realisable from the freshly constructed plugin. -/
def validTrace (es : List Event) : Bool :=
  validFrom initState 0 es

def runTrace (es : List Event) : PluginState :=
  es.foldl step initState

/- ### Plugin.auto_scroll: the cursor update of lines 317-322 -/

/-- The pure cursor step: wrap to the top when the maximum is reached,
otherwise advance by one. -/
def auto_scroll_step (max_value pos : Nat) : Nat :=
  if pos ≥ max_value then 0 else pos + 1

/-- The cursor after n ticks of the 50 ms scroll timer. -/
def auto_scroll_ticks (max_value : Nat) : Nat → Nat → Nat
  | 0, pos => pos
  | n + 1, pos => auto_scroll_ticks max_value n (auto_scroll_step max_value pos)

/- ### Concrete inputs used by the counterexamples and witnesses -/

def d0 : YMD := ⟨2024, 1, 1⟩

def d1 : YMD := ⟨2024, 1, 2⟩

/-- The record of the scenario in the spec: right terminal, destination
沈家门 in the description, datetime 2024-01-01 08:00:00. -/
def c7rec : RawRecord :=
  { confrom := some "六横大岙客运中心"
    description := "六横大岙客运中心至沈家门半升洞航班正常"
    datetime := "2024-01-01 08:00:00"
    fbz := "" }

/-- A record passing the origin and destination conditions whose
datetime field is missing (item.get returns the empty default). -/
def recNoDate : RawRecord :=
  { confrom := some "六横大岙客运中心"
    description := "六横大岙客运中心至沈家门半升洞航班正常"
    datetime := ""
    fbz := "" }

/-- A record passing the origin and destination conditions whose
non-empty datetime field cannot be parsed as %Y-%m-%d. -/
def recBadDate : RawRecord :=
  { confrom := some "六横大岙客运中心"
    description := "六横大岙客运中心至沈家门半升洞航班正常"
    datetime := "2024/01/01 08:00:00"
    fbz := "" }

/- ### C7 -/

/-- C7: filtering the single scenario record (origin 六横大岙客运中心,
description containing 沈家门, datetime 2024-01-01 08:00:00) with
reference date 2024-01-01 keeps the record, and filtering it with
reference date 2024-01-02 yields the empty list. -/
theorem c7_scenario_filter :
    filterRecords d0 [c7rec] = [c7rec] ∧ filterRecords d1 [c7rec] = [] := by
  decide

/- ### C2 -/

/-- C2 counterexample: the claim states that a record whose date field is
missing is dropped by the filter. In the source, a missing datetime field
becomes the empty string via item.get, the truthiness guard skips the
whole date check, and the record is appended: recNoDate is KEPT. -/
theorem c2_missing_date_kept_counterexample :
    keepRecord d0 recNoDate = true ∧ filterRecords d0 [recNoDate] = [recNoDate] := by
  decide

/-- C2 amended: a record whose non-empty date field fails to parse is
dropped, but a record whose date field is missing (empty) skips the date
condition entirely and is kept exactly when the origin and destination
conditions hold. -/
theorem c2_unparsable_dropped_missing_kept (today : YMD) (item : RawRecord) :
    (item.datetime ≠ "" → parseDateField item.datetime = none →
      keepRecord today item = false)
    ∧ (item.datetime = "" →
      keepRecord today item = (originMatches item && destMatches item)) := by
  constructor
  · intro h1 h2
    simp [keepRecord, dateKeep, h1, h2]
  · intro h0
    simp [keepRecord, dateKeep, h0]

/-- C2 witness: the amended statement evaluated at the two concrete
records recBadDate (unparsable date, dropped) and recNoDate (missing
date, kept by the remaining two conditions). -/
theorem c2_unparsable_dropped_missing_kept_witness :
    keepRecord d0 recBadDate = false
    ∧ keepRecord d0 recNoDate = (originMatches recNoDate && destMatches recNoDate) :=
  ⟨(c2_unparsable_dropped_missing_kept d0 recBadDate).1 (by decide) (by decide),
   (c2_unparsable_dropped_missing_kept d0 recNoDate).2 (by decide)⟩

/- ### C6 -/

/-- C6: with a fetcher that raises on every attempt, ShipFetchThread.run
makes exactly 3 attempts and then emits fetch_failed: runFetch returns
the failed result paired with attempt count 3. -/
theorem c6_retry_exhaustion (fetcher : Nat → AttemptResult) (today : YMD)
    (h : ∀ n, fetcher n = AttemptResult.raises) :
    runFetch fetcher today = (RunResult.failed, 3) := by
  simp [runFetch, max_retries, runFetchAux, h]

/-- C6 witness: the constantly raising fetcher makes exactly 3 attempts
and reports failure. -/
theorem c6_retry_exhaustion_witness :
    runFetch (fun _ => AttemptResult.raises) d0 = (RunResult.failed, 3) :=
  c6_retry_exhaustion (fun _ => AttemptResult.raises) d0 (fun _ => rfl)

/- ### C1 -/

/-- C1 counterexample: the claim states that an empty data array is a
valid terminal empty snapshot, not treated as a failure, with no retry.
In the source, an empty data array makes the truthiness guard skip the
success branch, so the loop falls through to retry_count += 1: with every
attempt returning an empty array, the run makes all 3 attempts and emits
fetch_failed — retried and treated as a failure. -/
theorem c1_empty_data_counterexample :
    runFetch (fun _ => AttemptResult.returns []) d0 = (RunResult.failed, 3) := by
  decide

/-- C1 amended: an attempt whose data array is empty is treated exactly
like a failed attempt and is retried; when every attempt returns an
empty data array the thread makes all 3 attempts and emits fetch_failed
(so the scheduler caches the error placeholder, not an empty snapshot).
An empty-status snapshot arises only from a non-empty data array whose
filtered list is empty. -/
theorem c1_empty_data_retried (fetcher : Nat → AttemptResult) (today : YMD)
    (h : ∀ n, fetcher n = AttemptResult.returns []) :
    runFetch fetcher today = (RunResult.failed, 3) := by
  simp [runFetch, max_retries, runFetchAux, h]

/-- C1 witness: the amended statement at the fetcher constantly
returning an empty data array. -/
theorem c1_empty_data_retried_witness :
    runFetch (fun _ => AttemptResult.returns []) d1 = (RunResult.failed, 3) :=
  c1_empty_data_retried (fun _ => AttemptResult.returns []) d1 (fun _ => rfl)

/- ### Concrete scheduler traces -/

/-- A plausible plugin start instant (a Unix timestamp in seconds). -/
def T0 : Nat := 1700000000

/-- execute() launches the first fetch at T0, the worker exhausts its
retries and delivers fetch_failed 10 seconds later (three attempts with
their 2-second sleeps), and the next one-second tick runs check_update
at T0 + 11, well before the scheduled 5-minute retry at T0 + 310. -/
def trace3 : List Event :=
  [Event.execute T0, Event.workerFailure (T0 + 10), Event.tick (T0 + 11)]

/-- One failure cycle after the first exhaustion: the next tick starts a
fetch and that fetch exhausts its retries 6 seconds later (the minimum:
three instant failures each followed by time.sleep(2)). -/
def cycleEvents (k : Nat) : List Event :=
  [Event.tick (T0 + 11 + 7 * k), Event.workerFailure (T0 + 17 + 7 * k)]

def cyclesFrom : Nat → List Event
  | 0 => []
  | n + 1 => cyclesFrom n ++ cycleEvents n

/-- The upstream keeps failing: after the first exhaustion at T0 + 10,
ticks keep relaunching fetches that fail 6 seconds later. The tick at
T0 + 305 starts a worker that is still running at T0 + 310, when the
5-minute singleShot scheduled by the first failure fires and calls
update_ship_dynamics unconditionally. -/
def trace4 : List Event :=
  [Event.execute T0, Event.workerFailure (T0 + 10)]
  ++ cyclesFrom 42
  ++ [Event.tick (T0 + 305), Event.delayedRetry (T0 + 310)]

/- ### C3 -/

/-- C3: the claim states that every tick before the backoff deadline
(the failure time plus 300 seconds) is a no-op. Evaluated at the failing
input trace3: one second after retry exhaustion, long before the
deadline T0 + 310, the tick at T0 + 11 passes the staleness test
(last_fetched is still 0) and the is_loading test, so check_update
launches a new fetch — is_loading becomes true and a worker starts. The
source code itself documents the intended behaviour as retrying after 5
minutes (the singleShot comment and the user-visible placeholder text),
which the tick path contradicts. -/
theorem c3_tick_before_backoff_deadline_fetches :
    validTrace trace3 = true
    ∧ (runTrace trace3).pending = [T0 + 310]
    ∧ (runTrace trace3).is_loading = true
    ∧ (runTrace trace3).inFlight = [T0 + 11]
    ∧ T0 + 11 < T0 + 310 := by
  decide

/- ### C4 -/

/-- C4 counterexample: the claim states that at most one fetch is ever
in flight. In the realisable trace trace4, the worker started by the
tick at T0 + 305 is still running when the 5-minute singleShot fires at
T0 + 310; the singleShot callback is update_ship_dynamics, which has no
in-flight guard, so a second worker starts: two fetches in flight. -/
theorem c4_two_fetches_in_flight_counterexample :
    validTrace trace4 = true ∧ (runTrace trace4).inFlight.length = 2 := by
  decide

/-- C4 amended: periodic ticks are indeed coalesced — check_update is a
no-op whenever is_loading holds — but the delayed post-backoff
re-attempt (and the initial execute call) reach update_ship_dynamics
unguarded, so they can start a second fetch while one is outstanding. -/
theorem c4_tick_coalesced_while_loading (s : PluginState) (now : Nat)
    (h : s.is_loading = true) :
    step s (Event.tick now) = s := by
  simp [step, check_update, h]

/-- C4 witness: a tick against a loading state leaves it unchanged. -/
theorem c4_tick_coalesced_while_loading_witness :
    step { initState with is_loading := true } (Event.tick 5)
      = { initState with is_loading := true } :=
  c4_tick_coalesced_while_loading { initState with is_loading := true } 5 rfl

/- ### C5 -/

/-- C5 counterexample: the claim states staleness holds iff the elapsed
time reaches the TTL or no prior fetch exists. The source test is
strict: at elapsed = TTL (now 1900, last_fetched 100, ttl 1800) it
returns false, and with no prior fetch (last_fetched 0) at now 5 it also
returns false even though the claim requires true in both cases. -/
theorem c5_boundary_counterexample :
    isStale 1900 100 1800 = false ∧ isStale 5 0 1800 = false := by
  decide

/-- C5 amended: the staleness test returns true iff the elapsed time
now - last_fetched (computed over the integers) STRICTLY exceeds the
TTL; the no-prior-fetch state is encoded as last_fetched = 0 and is
stale only when now itself exceeds the TTL. -/
theorem c5_stale_iff_elapsed_gt_ttl (now last_fetched ttl : Nat) :
    isStale now last_fetched ttl = true
      ↔ (now : Int) - (last_fetched : Int) > (ttl : Int) := by
  simp [isStale]
  omega

/- ### C8 -/

set_option maxRecDepth 8000 in
/-- C8: the auto-scroll cursor step with maximum 100 started at 0
returns to 0 after exactly 101 ticks and at no earlier positive tick
count: it advances by one per tick up to the maximum and wraps to zero
on the tick that finds the cursor at the maximum. -/
theorem c8_auto_scroll_wraps :
    auto_scroll_ticks 100 101 0 = 0
    ∧ ((List.range 101).drop 1).all
        (fun k => auto_scroll_ticks 100 k 0 != 0) = true := by
  decide

/- ### C9 -/

/-- C9 counterexample: the claim states that no loading or error
placeholder is ever written into the cached snapshot state. In the
realisable one-event trace where the host calls execute(),
update_ship_dynamics immediately overwrites cached_descriptions with
the loading placeholder. -/
theorem c9_loading_placeholder_cached_counterexample :
    validTrace [Event.execute T0] = true
    ∧ (runTrace [Event.execute T0]).cached_descriptions
        = [CEntry.msg "正在加载船班信息..."] := by
  decide

/-- C9 amended: the cached_descriptions field is overwritten with a
loading placeholder whenever a fetch starts and with an error
placeholder on failure; what only a successful fetch ever updates is the
last_fetched timestamp — every non-success event leaves it unchanged. -/
theorem c9_last_fetched_only_on_success (s : PluginState) (e : Event) :
    (step s e).last_fetched = s.last_fetched
    ∨ ∃ now l, e = Event.workerSuccess now l ∧ (step s e).last_fetched = now := by
  cases e with
  | execute now => exact Or.inl rfl
  | tick now =>
    left
    simp only [step, check_update]
    split
    · rfl
    · rfl
  | workerSuccess now l => exact Or.inr ⟨now, l, rfl, rfl⟩
  | workerFailure now => exact Or.inl rfl
  | delayedRetry now => exact Or.inl rfl

/- ### C10 -/

/-- C10: when handle_success receives an empty filtered list, it stores
the single one-field no-data placeholder as the cached snapshot and
stamps last_fetched with the completion time, so the empty result is
cached for the full TTL like any other success. -/
theorem c10_empty_success_placeholder (s : PluginState) (now : Nat) :
    (handle_success s now []).cached_descriptions
        = [CEntry.msg "暂无六横大岙客运中心船班信息"]
    ∧ (handle_success s now []).last_fetched = now :=
  ⟨rfl, rfl⟩

end CwShip
